import Mathlib

/-!
Verification of the glowberry background daemon's animation controller,
protocol trackers, GPU initialization and offscreen SHM channel.

Shallow embedding conventions:
* Wayland protocol object ids (`wl_output@N`, workspace handles, toplevel
  handles) are modelled as `ℕ`; `Proxy::id().protocol_id()` is the identity.
* Rust `HashSet<u32>` becomes `Finset ℕ`; `HashSet<State>` becomes
  `Finset TState`; `HashMap`/`Vec` of records become association lists.
* `f64` battery percentages are modelled as `ℚ`; the saturating Rust cast
  `as u8` is `f64_as_u8`.
* The power monitor trait object is represented by the `PowerState`
  snapshot its `current()` method returns.
-/

namespace Glowberry

/-! ## Toplevel tracker (crates/glowberry-lib/src/toplevel_info.rs) -/

/-- `zcosmic_toplevel_handle_v1::State` flags. -/
inductive TState
  | Maximized
  | Minimized
  | Activated
  | Fullscreen
  | Sticky
  deriving DecidableEq

/-- `ToplevelData`: pending and committed state of one tracked toplevel. -/
structure ToplevelData where
  pending_state : Finset TState
  state : Finset TState
  pending_output_ids : Finset ℕ
  output_ids : Finset ℕ
  pending_workspace_ids : Finset ℕ
  workspace_ids : Finset ℕ
  deriving DecidableEq

/-- `ToplevelTracker`: the tracked toplevels with their state
(`toplevels: Vec<(ZcosmicToplevelHandleV1, ToplevelData)>`). -/
structure ToplevelTracker where
  toplevels : List (ℕ × ToplevelData)
  deriving DecidableEq

/-- `ToplevelTracker::has_active_fullscreen_on_output_id`. -/
def ToplevelTracker.has_active_fullscreen_on_output_id
    (t : ToplevelTracker) (output_id : ℕ) (active_workspace_ids : Finset ℕ) : Bool :=
  -- If we have no active workspace info, don't pause (can't determine)
  if active_workspace_ids = ∅ then false
  else
    t.toplevels.any fun p =>
      let data := p.2
      let is_fullscreen := decide (TState.Fullscreen ∈ data.state)
      let on_output := decide (output_id ∈ data.output_ids)
      -- If toplevel has no workspace info, assume NOT on active workspace
      if data.workspace_ids = ∅ then false
      else
        let on_active_workspace :=
          decide (∃ ws ∈ data.workspace_ids, ws ∈ active_workspace_ids)
        is_fullscreen && on_output && on_active_workspace

/-- `ToplevelTracker::commit_toplevel`, the per-record part: copy
pending → committed, report whether fullscreen flag, outputs or
workspaces changed. -/
def commit_toplevel_data (data : ToplevelData) : ToplevelData × Bool :=
  let was_fullscreen := decide (TState.Fullscreen ∈ data.state)
  let old_output_ids := data.output_ids
  let old_workspace_ids := data.workspace_ids
  let data' : ToplevelData :=
    { data with
      state := data.pending_state
      output_ids := data.pending_output_ids
      workspace_ids := data.pending_workspace_ids }
  let is_fullscreen := decide (TState.Fullscreen ∈ data'.state)
  let changed := (was_fullscreen != is_fullscreen)
    || decide (old_output_ids ≠ data'.output_ids)
    || decide (old_workspace_ids ≠ data'.workspace_ids)
  (data', changed)

/-- `ToplevelTracker::commit_toplevel` on the list of records: commit the
first record whose handle matches (`get_data_mut` finds the first match);
a missing handle commits nothing and reports `false`. -/
def commit_toplevel_list : List (ℕ × ToplevelData) → ℕ → List (ℕ × ToplevelData) × Bool
  | [], _ => ([], false)
  | (k, d) :: rest, h =>
    if k = h then
      let r := commit_toplevel_data d
      ((k, r.1) :: rest, r.2)
    else
      let r := commit_toplevel_list rest h
      ((k, d) :: r.1, r.2)

/-- `ToplevelTracker::commit_toplevel`. -/
def ToplevelTracker.commit_toplevel (t : ToplevelTracker) (handle : ℕ) :
    ToplevelTracker × Bool :=
  let r := commit_toplevel_list t.toplevels handle
  (⟨r.1⟩, r.2)

/-! ## Workspace tracker (crates/glowberry-lib/src/workspace_info.rs) -/

/-- `WorkspaceData`: committed and pending active flag of one workspace. -/
structure WorkspaceData where
  is_active : Bool
  pending_is_active : Bool
  deriving DecidableEq

/-- `WorkspaceGroupData`: committed/pending output membership and the
member workspace handles of one workspace group. -/
structure WorkspaceGroupData where
  output_ids : Finset ℕ
  pending_output_ids : Finset ℕ
  workspaces : List ℕ
  deriving DecidableEq

/-- `WorkspaceTracker`: groups as a `Vec`, workspaces as a `HashMap`
(modelled as an association list with unique keys). -/
structure WorkspaceTracker where
  groups : List (ℕ × WorkspaceGroupData)
  workspaces : List (ℕ × WorkspaceData)
  deriving DecidableEq

/-- Update the first association-list entry with the given key
(`get_group_data_mut` / `HashMap::get_mut` semantics). -/
def update_first {α : Type} : List (ℕ × α) → ℕ → (α → α) → List (ℕ × α)
  | [], _, _ => []
  | (k, v) :: rest, h, f =>
    if k = h then (k, f v) :: rest
    else (k, v) :: update_first rest h f

/-- `WorkspaceTracker::commit_group`: copy pending output ids to
committed. Note: the source returns `()`, no change flag. -/
def WorkspaceTracker.commit_group (wt : WorkspaceTracker) (group : ℕ) :
    WorkspaceTracker :=
  { wt with
    groups := update_first wt.groups group
      (fun data => { data with output_ids := data.pending_output_ids }) }

/-- `WorkspaceTracker::commit_workspace` on the association list: commit
the entry with the given key and report whether the active flag changed. -/
def commit_workspace_list : List (ℕ × WorkspaceData) → ℕ → List (ℕ × WorkspaceData) × Bool
  | [], _ => ([], false)
  | (k, d) :: rest, ws =>
    if k = ws then
      let was_active := d.is_active
      let d' : WorkspaceData := { d with is_active := d.pending_is_active }
      ((k, d') :: rest, was_active != d'.is_active)
    else
      let r := commit_workspace_list rest ws
      ((k, d) :: r.1, r.2)

/-- `WorkspaceTracker::commit_workspace`. -/
def WorkspaceTracker.commit_workspace (wt : WorkspaceTracker) (workspace : ℕ) :
    WorkspaceTracker × Bool :=
  let r := commit_workspace_list wt.workspaces workspace
  ({ wt with workspaces := r.1 }, r.2)

/-- `WorkspaceTracker::get_active_workspace_ids_for_output`. -/
def WorkspaceTracker.get_active_workspace_ids_for_output
    (wt : WorkspaceTracker) (output_id : ℕ) : Finset ℕ :=
  wt.groups.foldl
    (fun active_ids g =>
      if output_id ∈ g.2.output_ids then
        g.2.workspaces.foldl
          (fun acc ws =>
            match wt.workspaces.lookup ws with
            | some ws_data => if ws_data.is_active then insert ws acc else acc
            | none => acc)
          active_ids
      else active_ids)
    ∅

/-! ## Shader physical size (engine.rs, `CosmicBg::shader_physical_size`) -/

/-- `u32` multiplication as the release build computes it: the product
wraps modulo `2^32` (a debug build would panic on overflow instead). -/
def u32_mul (a b : ℕ) : ℕ :=
  a * b % 4294967296

/-- `CosmicBg::shader_physical_size`. All quantities are `u32`, so the
`w * scale` products wrap modulo `2^32`; the subsequent division keeps
the result in range. -/
def shader_physical_size (layer_size : Option (ℕ × ℕ))
    (fractional_scale : Option ℕ) (output_mode_dims : Option (ℕ × ℕ)) :
    ℕ × ℕ :=
  match layer_size with
  | some (w, h) =>
    let scale := fractional_scale.getD 120
    (u32_mul w scale / 120, u32_mul h scale / 120)
  | none =>
    match output_mode_dims with
    | some (w, h) => (w, h)
    | none =>
      let w := 1920
      let h := 1080
      let scale := fractional_scale.getD 120
      (u32_mul w scale / 120, u32_mul h scale / 120)

/-! ## Animation controller (engine.rs) -/

/-- `PauseReason` from engine.rs. -/
inductive PauseReason
  | FullscreenApp
  | LidClosed
  | LowBattery (percentage : ℕ) (threshold : ℕ)
  | OnBattery
  deriving DecidableEq

/-- `OnBatteryAction` from the configuration crate (not under src/); the
engine only ever compares it against `Pause`, the other variants carry a
reduced frame rate or no action. -/
inductive OnBatteryAction
  | Pause
  | ReduceFrameRate
  | Continue
  deriving DecidableEq

/-- The `PowerState` snapshot the power monitor's `current()` returns. -/
structure PowerState where
  on_battery : Bool
  lid_is_closed : Bool
  battery_percentage : Option ℚ

/-- `PowerSavingConfig` fields read by the engine's pause logic. -/
structure PowerSavingConfig where
  pause_on_fullscreen : Bool
  pause_on_lid_closed : Bool
  pause_on_low_battery : Bool
  low_battery_threshold : ℕ
  on_battery_action : OnBatteryAction

/-- The fields of `CosmicBg` read by the pause/frame logic. The power
monitor trait object is represented by its `current()` snapshot. -/
structure CosmicBg where
  power_saving_config : PowerSavingConfig
  toplevel_tracker : Option ToplevelTracker
  workspace_tracker : Option WorkspaceTracker
  power_monitor : Option PowerState

/-- Rust's saturating cast `f64 as u8`: truncate toward zero and clamp to
`[0, 255]` (for `q < 0` both floor-then-clamp and truncate-then-clamp
give 0). -/
def f64_as_u8 (q : ℚ) : ℕ :=
  min 255 q.floor.toNat

/-- `CosmicBg::get_pause_reason`, with the output represented by its raw
protocol id (`output.id().protocol_id()`). -/
def CosmicBg.get_pause_reason (s : CosmicBg) (output_id : ℕ) : Option PauseReason :=
  let config := s.power_saving_config
  -- Check fullscreen app on this output
  let fullscreen_hit :=
    if config.pause_on_fullscreen then
      match s.toplevel_tracker with
      | some tracker =>
        -- Get active workspace IDs for this output (empty if workspace
        -- tracking unavailable)
        let active_workspace_ids :=
          match s.workspace_tracker with
          | some wt => wt.get_active_workspace_ids_for_output output_id
          | none => ∅
        tracker.has_active_fullscreen_on_output_id output_id active_workspace_ids
      | none => false
    else false
  if fullscreen_hit then some PauseReason.FullscreenApp
  else
    -- Power state checks (apply to all outputs)
    match s.power_monitor with
    | none => none -- No power monitor, don't pause
    | some power_state =>
      -- Check lid closed
      if config.pause_on_lid_closed && power_state.lid_is_closed then
        some PauseReason.LidClosed
      else
        -- Check low battery
        let low_battery :=
          if config.pause_on_low_battery then
            match power_state.battery_percentage with
            | some percentage =>
              if percentage ≤ (config.low_battery_threshold : ℚ) then
                some (PauseReason.LowBattery (f64_as_u8 percentage)
                  config.low_battery_threshold)
              else none
            | none => none
          else none
        match low_battery with
        | some r => some r
        | none =>
          -- Check on battery action
          if power_state.on_battery &&
              decide (config.on_battery_action = OnBatteryAction.Pause) then
            some PauseReason.OnBattery
          else none

/-- `CosmicBg::should_pause_animation`. -/
def CosmicBg.should_pause_animation (s : CosmicBg) (output_id : ℕ) : Bool :=
  (s.get_pause_reason output_id).isSome

/-- `CosmicBg::should_pause_animation_global`. -/
def CosmicBg.should_pause_animation_global (s : CosmicBg) : Bool :=
  match s.power_monitor with
  | none => false
  | some power_state =>
    let config := s.power_saving_config
    -- Check lid closed
    if config.pause_on_lid_closed && power_state.lid_is_closed then true
    else
      -- Check low battery
      let low :=
        if config.pause_on_low_battery then
          match power_state.battery_percentage with
          | some percentage =>
            decide (percentage ≤ (config.low_battery_threshold : ℚ))
          | none => false
        else false
      if low then true
      else
        -- Check on battery action
        power_state.on_battery &&
          decide (s.power_saving_config.on_battery_action = OnBatteryAction.Pause)

/-- Outcome of `wgpu Surface::get_current_texture` in the frame handler. -/
inductive SurfaceAcquire
  | ok
  | timeout
  | lost
  | outdated
  | outOfMemory
  | other
  deriving DecidableEq

/-- Observable outcome of one invocation of the frame handler for a
shader layer: whether a frame was presented and whether the next
compositor frame callback was requested. -/
structure FrameStep where
  presented : Bool
  callback_requested : Bool
  deriving DecidableEq

/-- Control flow of `CosmicBg::frame` for a shader layer: render only if
unpaused, the frame-rate gate (`should_render`) passes, and the surface
texture is acquired; the next frame callback is requested exactly when
unpaused. -/
def frame_shader_step (pause_reason : Option PauseReason)
    (should_render : Bool) (acquire : SurfaceAcquire) : FrameStep :=
  let presented :=
    if pause_reason.isNone then
      if should_render then
        match acquire with
        | SurfaceAcquire.ok => true
        | _ => false
      else false
    else false
  -- Only request if not paused - when paused, GPU goes truly idle
  let callback_requested :=
    match pause_reason with
    | some _ => false
    | none => true
  { presented := presented, callback_requested := callback_requested }

/-- `CosmicBg::frame` for the shader layer of the given output. -/
def CosmicBg.frame (s : CosmicBg) (output_id : ℕ)
    (should_render : Bool) (acquire : SurfaceAcquire) : FrameStep :=
  frame_shader_step (s.get_pause_reason output_id) should_render acquire

/-! ## Workspace manager Done handler (engine.rs, Dispatch for
`ExtWorkspaceManagerV1`, `Event::Done`) -/

/-- The `Done` arm's workspace loop: in the source,
`workspaces.iter().map(|ws| tracker.commit_workspace(ws)).any(|c| c)`
is a lazy iterator chain, so it commits workspaces in order and stops
after the first commit that reports a change. -/
def commit_workspaces_any : List ℕ → List (ℕ × WorkspaceData) →
    List (ℕ × WorkspaceData) × Bool
  | [], l => (l, false)
  | w :: rest, l =>
    let r := commit_workspace_list l w
    if r.2 then (r.1, true) else commit_workspaces_any rest r.1

/-- The `Event::Done` arm of the workspace manager dispatch: commit all
group states, then run the lazy commit-and-any loop over the workspace
keys; the boolean decides whether `on_workspace_active_changed`
(re-evaluation) runs. -/
def workspace_manager_done (wt : WorkspaceTracker) : WorkspaceTracker × Bool :=
  let groups := wt.groups.map Prod.fst
  let wt1 := groups.foldl (fun acc g => acc.commit_group g) wt
  let workspaces := wt1.workspaces.map Prod.fst
  let r := commit_workspaces_any workspaces wt1.workspaces
  ({ wt1 with workspaces := r.1 }, r.2)

/-- Modelled from the spec: `commit_group` as §4.5 describes it, returning
a changed flag alongside the committed data (the source's
`WorkspaceTracker::commit_group` returns no flag). -/
def commit_group_spec (data : WorkspaceGroupData) : WorkspaceGroupData × Bool :=
  ({ data with output_ids := data.pending_output_ids },
    decide (data.output_ids ≠ data.pending_output_ids))

/-- Modelled from the spec: the §4.5 "done" discipline — commit all
groups and all workspaces, aggregating every changed flag with logical
OR. -/
def workspace_manager_done_spec (wt : WorkspaceTracker) : WorkspaceTracker × Bool :=
  let groups := wt.groups.map fun p => (p.1, (commit_group_spec p.2).1)
  let group_changed := wt.groups.any fun p => (commit_group_spec p.2).2
  let workspaces := wt.workspaces.map fun p =>
    (p.1, (WorkspaceData.mk p.2.pending_is_active p.2.pending_is_active))
  let workspace_changed := wt.workspaces.any fun p =>
    p.2.is_active != p.2.pending_is_active
  (⟨groups, workspaces⟩, group_changed || workspace_changed)

/-! ## Spec-side pause cascade (§4.6 of the spec, for claim C1) -/

/-- Rule (a) of the spec's cascade: fullscreen policy enabled and the
fullscreen tracker reports active fullscreen coverage on that display
(with the active-workspace set from the workspace tracker, empty when
workspace tracking is unavailable). -/
def fullscreen_rule (s : CosmicBg) (output_id : ℕ) : Bool :=
  s.power_saving_config.pause_on_fullscreen &&
    match s.toplevel_tracker with
    | some tracker =>
      tracker.has_active_fullscreen_on_output_id output_id
        (match s.workspace_tracker with
         | some wt => wt.get_active_workspace_ids_for_output output_id
         | none => ∅)
    | none => false

/-- Rule (b): lid-closed policy enabled and the power monitor reports the
lid closed. -/
def lid_rule (s : CosmicBg) : Bool :=
  s.power_saving_config.pause_on_lid_closed &&
    match s.power_monitor with
    | some power_state => power_state.lid_is_closed
    | none => false

/-- Rule (c): low-battery policy enabled and the reported battery
percentage is at most the configured threshold; carries the payload of
the resulting `LowBattery` reason. -/
def low_battery_rule (s : CosmicBg) : Option (ℕ × ℕ) :=
  if s.power_saving_config.pause_on_low_battery then
    match s.power_monitor with
    | some power_state =>
      match power_state.battery_percentage with
      | some percentage =>
        if percentage ≤ (s.power_saving_config.low_battery_threshold : ℚ) then
          some (f64_as_u8 percentage, s.power_saving_config.low_battery_threshold)
        else none
      | none => none
    | none => none
  else none

/-- Rule (d): on-battery policy set to pause and the power monitor
reports the system on battery. -/
def on_battery_rule (s : CosmicBg) : Bool :=
  (match s.power_monitor with
   | some power_state => power_state.on_battery
   | none => false) &&
    decide (s.power_saving_config.on_battery_action = OnBatteryAction.Pause)

/-- The spec's §4.6 verdict: the first matching reason in the fixed order
(a) FullscreenApp, (b) LidClosed, (c) LowBattery, (d) OnBattery, else no
pause. -/
def pause_verdict_spec (s : CosmicBg) (output_id : ℕ) : Option PauseReason :=
  if fullscreen_rule s output_id then some PauseReason.FullscreenApp
  else if lid_rule s then some PauseReason.LidClosed
  else
    match low_battery_rule s with
    | some (percentage, threshold) =>
      some (PauseReason.LowBattery percentage threshold)
    | none =>
      if on_battery_rule s then some PauseReason.OnBattery
      else none

/-! ## GPU initialization (cosmic-bg-lib/src/gpu.rs, engine.rs) -/

/-- Outcome of `GpuRenderer::new`: either a constructed renderer or a
panic with the `expect` message. -/
inductive GpuInitOutcome
  | ok
  | panicked (msg : String)
  deriving DecidableEq

/-- `GpuRenderer::new`, parameterized by whether `request_adapter` and
`request_device` succeed. Both failures go through `expect`, i.e. panic. -/
def gpu_renderer_new (adapter_found : Bool) (device_found : Bool) : GpuInitOutcome :=
  if !adapter_found then
    GpuInitOutcome.panicked "Failed to find GPU adapter for live wallpapers"
  else if !device_found then
    GpuInitOutcome.panicked "Failed to create GPU device"
  else GpuInitOutcome.ok

/-- Outcome of engine construction with respect to the GPU
(engine.rs:397-399): a renderer is created iff some wallpaper has a
shader source, and a panic from `GpuRenderer::new` propagates. -/
inductive EngineGpuOutcome
  | ok (has_renderer : Bool)
  | panicked (msg : String)
  deriving DecidableEq

/-- `CosmicBg::new`'s GPU initialization:
`if has_shader_source { Some(GpuRenderer::new()) } else { None }`,
with no catch around the panic. -/
def cosmic_bg_new_gpu (has_shader_source adapter_found device_found : Bool) :
    EngineGpuOutcome :=
  if has_shader_source then
    match gpu_renderer_new adapter_found device_found with
    | GpuInitOutcome.ok => EngineGpuOutcome.ok true
    | GpuInitOutcome.panicked m => EngineGpuOutcome.panicked m
  else EngineGpuOutcome.ok false

/-- Error taxonomy named by the spec's §7. -/
inductive GpuError
  | GpuUnavailable
  deriving DecidableEq

/-- Modelled from the spec: `initialize()` as §4.1/§7 describe it — fails
with `GpuUnavailable` when no adapter or device is found, and the daemon
continues (no panic). -/
def initialize_spec (adapter_found device_found : Bool) : Except GpuError Unit :=
  if adapter_found && device_found then Except.ok ()
  else Except.error GpuError.GpuUnavailable

/-! ## Offscreen SHM channel (cosmic-bg-lib/src/shader_shm.rs) -/

/-- `ShaderShmBuffer`: a frame descriptor handed through the channel. -/
structure ShaderShmBuffer where
  fd : ℕ
  width : ℤ
  height : ℤ
  stride : ℤ
  deriving DecidableEq

/-- `ShaderShmRenderer::try_recv_buffer`: drain the FIFO channel (oldest
frame first in the list) keeping only the latest; the drained queue is
empty afterwards. -/
def try_recv_buffer (buffer_rx : List ShaderShmBuffer) :
    Option ShaderShmBuffer × List ShaderShmBuffer :=
  (buffer_rx.foldl (fun _ buffer => some buffer) none, [])

/-! ## Concrete states used by witnesses and counterexamples -/

/-- A tracker with one committed-fullscreen toplevel on output 7,
attributed to workspace 5. -/
def tt10 : ToplevelTracker :=
  ⟨[(40, ⟨∅, {TState.Fullscreen}, ∅, {7}, ∅, {5}⟩)]⟩

/-- A workspace tracker whose single group covers output 7 and whose
workspace 5 is active. -/
def wt10 : WorkspaceTracker :=
  ⟨[(20, ⟨{7}, ∅, [5]⟩)], [(5, ⟨true, true⟩)]⟩

/-- An engine state with every pause policy enabled but no power
monitor configured. -/
def s10 : CosmicBg :=
  ⟨⟨true, true, true, 20, OnBatteryAction.Pause⟩, some tt10, some wt10, none⟩

/-- A workspace tracker with a pending group-output change and two
workspaces both pending a switch to active. -/
def wt_c6 : WorkspaceTracker :=
  ⟨[(7, ⟨∅, {3}, []⟩)], [(1, ⟨false, true⟩), (2, ⟨false, true⟩)]⟩

/-- A workspace tracker with a pending group-output change and no
workspaces. -/
def wt_c6b : WorkspaceTracker :=
  ⟨[(7, ⟨∅, {3}, []⟩)], []⟩

/-- A toplevel record whose only pending difference from the committed
state is the Maximized flag. -/
def d_c9 : ToplevelData :=
  ⟨{TState.Maximized}, ∅, {1}, {1}, {2}, {2}⟩

/-! ## Helper lemmas -/

theorem commit_toplevel_data_idem (d : ToplevelData) :
    commit_toplevel_data (commit_toplevel_data d).1 = ((commit_toplevel_data d).1, false) := by
  simp [commit_toplevel_data]

theorem commit_toplevel_list_idem (l : List (ℕ × ToplevelData)) (h : ℕ) :
    commit_toplevel_list (commit_toplevel_list l h).1 h =
      ((commit_toplevel_list l h).1, false) := by
  induction l with
  | nil => simp [commit_toplevel_list]
  | cons p rest ih =>
    obtain ⟨k, d⟩ := p
    by_cases hk : k = h
    · simp [commit_toplevel_list, hk, commit_toplevel_data_idem]
    · simp [commit_toplevel_list, hk, ih]

theorem commit_workspace_list_idem (l : List (ℕ × WorkspaceData)) (w : ℕ) :
    commit_workspace_list (commit_workspace_list l w).1 w =
      ((commit_workspace_list l w).1, false) := by
  induction l with
  | nil => simp [commit_workspace_list]
  | cons p rest ih =>
    obtain ⟨k, d⟩ := p
    by_cases hk : k = w
    · simp [commit_workspace_list, hk]
    · simp [commit_workspace_list, hk, ih]

theorem update_first_head_eq {α : Type} (k : ℕ) (v : α)
    (rest : List (ℕ × α)) (f : α → α) :
    update_first ((k, v) :: rest) k f = (k, f v) :: rest := by
  simp [update_first]

theorem update_first_head_ne {α : Type} {k h : ℕ} (hk : k ≠ h) (v : α)
    (rest : List (ℕ × α)) (f : α → α) :
    update_first ((k, v) :: rest) h f = (k, v) :: update_first rest h f := by
  simp [update_first, hk]

theorem foldl_update_first_not_mem {α : Type} (ks : List ℕ) {k : ℕ}
    (hk : k ∉ ks) (v : α) (t : List (ℕ × α)) (f : α → α) :
    ks.foldl (fun acc w => update_first acc w f) ((k, v) :: t) =
      (k, v) :: ks.foldl (fun acc w => update_first acc w f) t := by
  induction ks generalizing t with
  | nil => rfl
  | cons w ws ih =>
    simp only [List.mem_cons, not_or] at hk
    simp only [List.foldl_cons]
    rw [update_first_head_ne hk.1, ih hk.2]

theorem foldl_update_first_self {α : Type} (l : List (ℕ × α)) (f : α → α)
    (h : (l.map Prod.fst).Nodup) :
    (l.map Prod.fst).foldl (fun acc w => update_first acc w f) l =
      l.map (fun p => (p.1, f p.2)) := by
  induction l with
  | nil => rfl
  | cons p t ih =>
    obtain ⟨k, v⟩ := p
    simp only [List.map_cons] at h ⊢
    obtain ⟨hk, ht⟩ := List.nodup_cons.mp h
    simp only [List.foldl_cons]
    rw [update_first_head_eq, foldl_update_first_not_mem _ hk, ih ht]

theorem foldl_commit_group_eq (ks : List ℕ) (wt : WorkspaceTracker) :
    ks.foldl (fun acc g => acc.commit_group g) wt =
      { wt with groups := ks.foldl (fun l g => update_first l g
          (fun data => { data with output_ids := data.pending_output_ids })) wt.groups } := by
  induction ks generalizing wt with
  | nil => rfl
  | cons g gs ih =>
    simp only [List.foldl_cons]
    rw [ih]
    rfl

theorem commit_workspace_list_head_ne {k w : ℕ} (hk : k ≠ w)
    (d : WorkspaceData) (t : List (ℕ × WorkspaceData)) :
    commit_workspace_list ((k, d) :: t) w =
      ((k, d) :: (commit_workspace_list t w).1, (commit_workspace_list t w).2) := by
  simp [commit_workspace_list, hk]

theorem commit_workspaces_any_not_mem (ks : List ℕ) {k : ℕ} (hk : k ∉ ks)
    (d : WorkspaceData) (t : List (ℕ × WorkspaceData)) :
    commit_workspaces_any ks ((k, d) :: t) =
      ((k, d) :: (commit_workspaces_any ks t).1, (commit_workspaces_any ks t).2) := by
  induction ks generalizing t with
  | nil => rfl
  | cons w ws ih =>
    simp only [List.mem_cons, not_or] at hk
    simp only [commit_workspaces_any]
    rw [commit_workspace_list_head_ne hk.1]
    by_cases hflag : (commit_workspace_list t w).2 = true
    · simp [hflag]
    · simp only [Bool.not_eq_true] at hflag
      simp [hflag, ih hk.2]

theorem commit_workspaces_any_flag (l : List (ℕ × WorkspaceData))
    (h : (l.map Prod.fst).Nodup) :
    (commit_workspaces_any (l.map Prod.fst) l).2 =
      l.any (fun p => p.2.is_active != p.2.pending_is_active) := by
  induction l with
  | nil => rfl
  | cons p t ih =>
    obtain ⟨k, d⟩ := p
    simp only [List.map_cons] at h ⊢
    obtain ⟨hk, ht⟩ := List.nodup_cons.mp h
    simp only [commit_workspaces_any]
    have hhead : commit_workspace_list ((k, d) :: t) k =
        ((k, { d with is_active := d.pending_is_active }) :: t,
          d.is_active != d.pending_is_active) := by
      simp [commit_workspace_list]
    rw [hhead]
    by_cases hc : (d.is_active != d.pending_is_active) = true
    · simp [hc]
    · simp only [Bool.not_eq_true] at hc
      rw [if_neg (by simp [hc])]
      rw [commit_workspaces_any_not_mem _ hk]
      simp [hc, ih ht]

theorem pause_reason_eq_spec (s : CosmicBg) (output_id : ℕ) :
    s.get_pause_reason output_id = pause_verdict_spec s output_id := by
  rcases s with ⟨⟨pf, plc, plb, thr, oba⟩, tt, wtr, pm⟩
  simp only [CosmicBg.get_pause_reason, pause_verdict_spec, fullscreen_rule, lid_rule,
    low_battery_rule, on_battery_rule]
  cases pf <;> cases tt <;> cases pm <;> simp
  all_goals rename_i ps
  all_goals rcases ps with ⟨ob, lid, bp⟩
  all_goals cases plb <;> cases bp <;> simp
  all_goals split_ifs <;> simp

/-! ## Claim theorems -/

/-- C1: for every display, `get_pause_reason` returns the first matching
reason in the fixed order (a) FullscreenApp when the fullscreen policy is
enabled and the tracker reports active fullscreen coverage, (b) LidClosed,
(c) LowBattery with percentage and threshold, (d) OnBattery, else no
pause. -/
theorem C1_pause_verdict_first_match (s : CosmicBg) (output_id : ℕ) :
    s.get_pause_reason output_id = pause_verdict_spec s output_id :=
  pause_reason_eq_spec s output_id

/-- C1 witness at a concrete state. -/
theorem C1_pause_verdict_first_match_witness :
    CosmicBg.get_pause_reason s10 7 = pause_verdict_spec s10 7 :=
  C1_pause_verdict_first_match s10 7

/-- C2: `has_active_fullscreen_on_output_id d A` is true iff some tracked
toplevel is committed fullscreen, covers `d`, has a non-empty committed
workspace set, and shares a committed workspace id with `A`; for `A = ∅`
the result is always false. -/
theorem C2_active_fullscreen_query (t : ToplevelTracker) (output_id : ℕ)
    (A : Finset ℕ) :
    (t.has_active_fullscreen_on_output_id output_id A = true ↔
      ∃ p ∈ t.toplevels, TState.Fullscreen ∈ p.2.state ∧
        output_id ∈ p.2.output_ids ∧ p.2.workspace_ids ≠ ∅ ∧
        ∃ ws ∈ p.2.workspace_ids, ws ∈ A) ∧
    t.has_active_fullscreen_on_output_id output_id (∅ : Finset ℕ) = false := by
  constructor
  · unfold ToplevelTracker.has_active_fullscreen_on_output_id
    by_cases hA : A = ∅
    · subst hA
      simp
    · simp only [hA, if_false, List.any_eq_true]
      constructor
      · rintro ⟨p, hp, hcond⟩
        by_cases hw : p.2.workspace_ids = ∅
        · simp [hw] at hcond
        · simp only [hw, if_false, Bool.and_eq_true, decide_eq_true_eq] at hcond
          exact ⟨p, hp, hcond.1.1, hcond.1.2, hw, hcond.2⟩
      · rintro ⟨p, hp, hfs, hout, hw, hws⟩
        refine ⟨p, hp, ?_⟩
        simp only [hw, if_false, Bool.and_eq_true, decide_eq_true_eq]
        exact ⟨⟨hfs, hout⟩, hws⟩
  · simp [ToplevelTracker.has_active_fullscreen_on_output_id]

/-- C3: in one invocation of the frame handler for a shader display, the
next compositor frame callback is requested exactly when the pause
verdict is "no pause" (both after a presented frame and after a frame
skipped by the frame-rate gate), and never when a pause reason holds;
a frame is presented only when unpaused, due, and the surface texture is
acquired. -/
theorem C3_frame_callback_iff_unpaused (s : CosmicBg) (output_id : ℕ)
    (should_render : Bool) (acquire : SurfaceAcquire) :
    ((s.frame output_id should_render acquire).callback_requested = true ↔
      s.get_pause_reason output_id = none) ∧
    (s.frame output_id should_render acquire).presented =
      ((s.get_pause_reason output_id).isNone &&
        (should_render && decide (acquire = SurfaceAcquire.ok))) := by
  unfold CosmicBg.frame frame_shader_step
  cases s.get_pause_reason output_id <;> cases should_render <;> cases acquire <;> simp

/-- C4 counterexample: at logical width `2^26` with fractional scale
`128` the `u32` product `w * scale = 2^33` wraps to `0`, so the release
build returns width `0` where the claim's exact formula `w * s / 120`
gives `71582788` (and a debug build would panic on the overflow). -/
theorem C4_counterexample_u32_overflow :
    shader_physical_size (some (67108864, 1)) (some 128) none = (0, 1) ∧
    67108864 * 128 / 120 = 71582788 ∧
    shader_physical_size (some (67108864, 1)) (some 128) none ≠
      (67108864 * 128 / 120, 1 * 128 / 120) := by
  refine ⟨by decide, by decide, by decide⟩

/-- C4 amended: a present logical size is scaled by
fractional-scale/120 with the products wrapping modulo `2^32` and the
division truncating, regardless of the mode — agreeing with the exact
`(w*s/120, h*s/120)` whenever both products are below `2^32` — else the
unscaled mode dimensions are used, else the 1920×1080 default scaled the
same way; the three concrete examples hold. -/
theorem C4_shader_physical_size_wrapped (w h : ℕ) (fs : Option ℕ)
    (md : Option (ℕ × ℕ)) :
    shader_physical_size (some (w, h)) fs md =
      (w * fs.getD 120 % 4294967296 / 120, h * fs.getD 120 % 4294967296 / 120) ∧
    (w * fs.getD 120 < 4294967296 → h * fs.getD 120 < 4294967296 →
      shader_physical_size (some (w, h)) fs md =
        (w * fs.getD 120 / 120, h * fs.getD 120 / 120)) ∧
    shader_physical_size none fs (some (w, h)) = (w, h) ∧
    shader_physical_size none fs none =
      (1920 * fs.getD 120 % 4294967296 / 120, 1080 * fs.getD 120 % 4294967296 / 120) ∧
    shader_physical_size (some (100, 50)) (some 150) md = (125, 62) ∧
    shader_physical_size none (some 150) (some (1280, 720)) = (1280, 720) ∧
    shader_physical_size (some (1200, 800)) none (some (640, 480)) = (1200, 800) := by
  refine ⟨rfl, ?_, rfl, rfl, rfl, rfl, rfl⟩
  intro hw hh
  simp [shader_physical_size, u32_mul, Nat.mod_eq_of_lt hw, Nat.mod_eq_of_lt hh]

/-- C4 amended witness: the in-range agreement conjunct at the spec's own
example, logical (100,50) with scale 150. -/
theorem C4_shader_physical_size_wrapped_witness :
    100 * (Option.getD (some 150) 120) < 4294967296 ∧
    50 * (Option.getD (some 150) 120) < 4294967296 ∧
    shader_physical_size (some (100, 50)) (some 150) none =
      (100 * (Option.getD (some 150) 120) / 120,
        50 * (Option.getD (some 150) 120) / 120) :=
  ⟨by decide, by decide,
    (C4_shader_physical_size_wrapped 100 50 (some 150) none).2.1
      (by decide) (by decide)⟩

/-- C5: committing a toplevel or a workspace twice with no intervening
pending updates reports no change on the second commit and leaves the
tracker exactly as after the first commit. -/
theorem C5_commit_idempotent (t : ToplevelTracker) (h : ℕ)
    (wt : WorkspaceTracker) (w : ℕ) :
    (t.commit_toplevel h).1.commit_toplevel h = ((t.commit_toplevel h).1, false) ∧
    (wt.commit_workspace w).1.commit_workspace w = ((wt.commit_workspace w).1, false) := by
  constructor
  · simp [ToplevelTracker.commit_toplevel, commit_toplevel_list_idem]
  · simp [WorkspaceTracker.commit_workspace, commit_workspace_list_idem]

/-- C8: a single non-blocking `try_recv_buffer` on a queue of frames
returns exactly the newest frame and discards the rest; a subsequent call
with no new frame returns nothing. -/
theorem C8_latest_wins (sent : List ShaderShmBuffer) (b : ShaderShmBuffer) :
    try_recv_buffer (sent ++ [b]) = (some b, []) ∧
    try_recv_buffer (try_recv_buffer (sent ++ [b])).2 = (none, []) := by
  constructor
  · unfold try_recv_buffer
    simp [List.foldl_append]
  · unfold try_recv_buffer
    simp [List.foldl_append]

/-- C9: `commit_toplevel` reports a change exactly when the Fullscreen
flag's presence, the committed output-id set, or the committed
workspace-id set differs; a commit differing only in other state flags
(here Maximized) reports no change even though the committed state set
did change. -/
theorem C9_commit_changed_iff (d : ToplevelData) :
    ((commit_toplevel_data d).2 = true ↔
      (¬((TState.Fullscreen ∈ d.state) ↔ (TState.Fullscreen ∈ d.pending_state)) ∨
        d.output_ids ≠ d.pending_output_ids ∨
        d.workspace_ids ≠ d.pending_workspace_ids)) ∧
    (commit_toplevel_data d_c9).2 = false ∧
    (commit_toplevel_data d_c9).1.state ≠ d_c9.state := by
  refine ⟨?_, by decide, by decide⟩
  simp only [commit_toplevel_data, Bool.or_eq_true, bne_iff_ne, ne_eq,
    decide_eq_true_eq, decide_eq_decide]
  tauto

/-- C10: with no power monitor configured, the pause verdict is
FullscreenApp exactly when the fullscreen rule fires and otherwise no
pause — never LidClosed, LowBattery or OnBattery — and the global pause
check returns false. -/
theorem C10_no_power_monitor (s : CosmicBg) (output_id : ℕ)
    (hpm : s.power_monitor = none) :
    s.get_pause_reason output_id =
      (if fullscreen_rule s output_id then some PauseReason.FullscreenApp else none) ∧
    s.should_pause_animation_global = false := by
  constructor
  · rw [pause_reason_eq_spec]
    unfold pause_verdict_spec lid_rule low_battery_rule on_battery_rule
    rw [hpm]
    cases hfs : fullscreen_rule s output_id <;> simp [hfs]
  · simp [CosmicBg.should_pause_animation_global, hpm]

/-- C10 witness: at `s10` (fullscreen covering output 7, no power
monitor) the verdict is FullscreenApp and the global pause check is
false. -/
theorem C10_no_power_monitor_witness :
    CosmicBg.get_pause_reason s10 7 = some PauseReason.FullscreenApp ∧
    CosmicBg.should_pause_animation_global s10 = false := by
  have h := C10_no_power_monitor s10 7 rfl
  refine ⟨?_, h.2⟩
  rw [h.1]
  decide

/-- C6 counterexample: at `wt_c6` (two workspaces both pending a change)
the Done handler leaves workspace 2 uncommitted, so the caller does not
"commit all workspaces"; and at `wt_c6b` (only a group changed) the
aggregated flag is false although the committed group state changed and
the spec's OR over all commit flags is true — `commit_group` returns no
flag to aggregate. -/
theorem C6_counterexample_group_flag :
    (workspace_manager_done wt_c6).1.workspaces.lookup 2 =
      some (WorkspaceData.mk false true) ∧
    (workspace_manager_done wt_c6b).2 = false ∧
    (workspace_manager_done wt_c6b).1.groups ≠ wt_c6b.groups ∧
    (workspace_manager_done_spec wt_c6b).2 = true := by
  refine ⟨by decide, by decide, by decide, by decide⟩

/-- C6 amended: `commit_workspace` returns a changed flag but
`commit_group` returns none; on the protocol-wide Done the caller commits
all groups (their changes are not aggregated), then commits workspaces in
order stopping after the first changed one, and the resulting decision
flag equals the logical OR of the per-workspace changed indicators. -/
theorem C6_amended_done_aggregation (wt : WorkspaceTracker)
    (hg : (wt.groups.map Prod.fst).Nodup)
    (hw : (wt.workspaces.map Prod.fst).Nodup) :
    (workspace_manager_done wt).1.groups =
      wt.groups.map (fun p => (p.1, { p.2 with output_ids := p.2.pending_output_ids })) ∧
    (workspace_manager_done wt).2 =
      wt.workspaces.any (fun p => p.2.is_active != p.2.pending_is_active) := by
  unfold workspace_manager_done
  dsimp only
  rw [foldl_commit_group_eq]
  constructor
  · exact foldl_update_first_self wt.groups _ hg
  · exact commit_workspaces_any_flag wt.workspaces hw

/-- C6 amended witness at `wt_c6`. -/
theorem C6_amended_done_aggregation_witness :
    (workspace_manager_done wt_c6).1.groups =
      [(7, WorkspaceGroupData.mk {3} {3} [])] ∧
    (workspace_manager_done wt_c6).2 = true := by
  have h := C6_amended_done_aggregation wt_c6 (by decide) (by decide)
  exact ⟨h.1.trans (by decide), h.2.trans (by decide)⟩

/-- C7 counterexample: with no adapter available and a shader wallpaper
configured, engine construction panics with the adapter `expect` message
rather than producing a recoverable error: there is no `GpuUnavailable`
outcome in the code (the spec-modelled `initialize_spec` would have
returned one). -/
theorem C7_counterexample_gpu_panic :
    cosmic_bg_new_gpu true false true =
      EngineGpuOutcome.panicked "Failed to find GPU adapter for live wallpapers" ∧
    cosmic_bg_new_gpu true false true ≠ EngineGpuOutcome.ok true ∧
    cosmic_bg_new_gpu true false true ≠ EngineGpuOutcome.ok false ∧
    initialize_spec false true = Except.error GpuError.GpuUnavailable := by
  refine ⟨rfl, by decide, by decide, rfl⟩

/-- C7 amended: `GpuRenderer::new` panics (with the respective `expect`
message) when no adapter or no device is found, succeeding only when both
are found; the engine skips GPU initialization entirely — and so keeps
running with static wallpapers — only when no shader source is
configured, while with a shader source a GPU failure panics the daemon. -/
theorem C7_amended_gpu_init (a d : Bool) :
    (gpu_renderer_new a d = GpuInitOutcome.ok ↔ a = true ∧ d = true) ∧
    gpu_renderer_new false d =
      GpuInitOutcome.panicked "Failed to find GPU adapter for live wallpapers" ∧
    gpu_renderer_new true false = GpuInitOutcome.panicked "Failed to create GPU device" ∧
    cosmic_bg_new_gpu false a d = EngineGpuOutcome.ok false ∧
    (cosmic_bg_new_gpu true a d = EngineGpuOutcome.ok true ↔ a = true ∧ d = true) := by
  cases a <;> cases d <;> decide

end Glowberry
